import Mathlib

/-!
Shallow embedding of the Zero-Trust document platform core:
* `app/core/policy_engine.py` — the Policy Decision Client (`evaluate_request`),
* `app/services/nlp_service.py` — the Sensitivity Classifier (`scan_text_for_pii`),
* `app/tasks.py` — the Classification Worker (`scan_file_task`),
* `app/api/files.py` — the enforcement handlers (`download_file`, `view_file`,
  `delete_file`) together with `app/services/log_service.py` (`log_activity`).

External collaborators (the OPA engine, the HTTP stack, the NER pipeline, the
filesystem, the watermark renderer) are modelled as explicit oracle inputs; the
Python control flow operating on their answers is translated branch by branch.
-/

/-- A Python/JSON value, as produced by `response.json()` in
`app/core/policy_engine.py`.  Numbers are modelled as rationals. -/
inductive JValue where
  | null
  | bool (b : Bool)
  | num (q : ℚ)
  | str (s : String)
  | arr (xs : List JValue)
  | obj (fields : List (String × JValue))

/-- Python truthiness (`if not decision[...]` in `app/api/files.py`):
`None`, `False`, `0`, `""`, `[]`, `{}` are falsy. -/
def JValue.truthy : JValue → Bool
  | .null => false
  | .bool b => b
  | .num q => q != 0
  | .str s => s ≠ ""
  | .arr xs => ¬ xs.isEmpty
  | .obj fs => ¬ fs.isEmpty

/-- Python `d.get(key, default)`: succeeds on a dict (JSON object), raises
`AttributeError` on every other value (`.get` is not an attribute there).
JSON objects have unique keys, so first-match lookup is faithful. -/
def pyGet (j : JValue) (key : String) (dflt : JValue) : Except String JValue :=
  match j with
  | .obj fields => .ok ((fields.lookup key).getD dflt)
  | _ => .error ("AttributeError")

/-- The behaviour of the `requests.post` call to OPA, seen from
`evaluate_request`: a transport-level failure (connection error / timeout, both
`RequestException`s), or an HTTP response with a status code and a body that
either parses as JSON (`some j`) or does not (`none`, raising
`requests.exceptions.JSONDecodeError`, a `RequestException` subclass). -/
inductive OPAResponse where
  | transportError
  | status (code : Nat) (body : Option JValue)

/-- The dict `{"allow": ..., "reasons": ...}` returned by `evaluate_request`. -/
structure PEDecision where
  allow : JValue
  reasons : JValue

/-- The synthetic reason used by the fail-closed branch of `evaluate_request`. -/
def unreachableReason : String := "Internal Security Error: Policy Engine Unreachable"

/-- The fail-closed verdict: `{"allow": False, "reasons": [unreachableReason]}`. -/
def failClosedDecision : PEDecision :=
  { allow := .bool false, reasons := .arr [.str unreachableReason] }

/-- Model of `evaluate_request` from `app/core/policy_engine.py`.  `raise_for_status`
raises `HTTPError` (a `RequestException`) exactly for 4xx/5xx codes; the
`except requests.exceptions.RequestException` clause catches transport errors,
timeouts, `HTTPError` and JSON-decode failures and returns the fail-closed
dict.  An `AttributeError` from calling `.get` on a non-dict is NOT caught and
propagates to the caller (modelled as `.error`). -/
def evaluate_request (resp : OPAResponse) : Except String PEDecision :=
  match resp with
  | .transportError => .ok failClosedDecision
  | .status code body =>
    if 400 ≤ code ∧ code < 600 then .ok failClosedDecision
    else
      match body with
      | none => .ok failClosedDecision
      | some j =>
        match pyGet j ("result") (.obj []) with
        | .error e => .error e
        | .ok result =>
          match pyGet result ("allow") (.bool false) with
          | .error e => .error e
          | .ok allowed =>
            match pyGet result ("deny_reasons") (.arr []) with
            | .error e => .error e
            | .ok reasons => .ok { allow := allowed, reasons := reasons }

/-- One entity in the NER pipeline output (`§6`: an ordered list of
`{entity_group, word, score}`); the score is a probability in `[0,1]`,
modelled as a rational. -/
structure Entity where
  entity_group : String
  word : String
  score : ℚ
deriving DecidableEq, Repr

/-- Behaviour of the `ner_pipeline(text)` call in
`app/services/nlp_service.py`: either it raises (caught by the
`except Exception` clause) or it returns a list of entities. -/
inductive DetectorResult where
  | raises
  | ok (es : List Entity)
deriving DecidableEq, Repr

/-- A retained PII finding, the dict built in `scan_text_for_pii`
(`type`/`value`/`score`), plus the `location` key added by the xlsx branch of
`scan_file_task`. -/
structure PiiFinding where
  type : String
  value : String
  score : ℚ
  location : Option String
deriving DecidableEq, Repr

/-- The constant `CONFIDENCE_THRESHOLD = 0.95` from `app/services/nlp_service.py`. -/
def CONFIDENCE_THRESHOLD : ℚ := 95 / 100

/-- Python `round(x, 4)` on the score.  (Python rounds binary floats
half-to-even; this rounds half away from zero — the two differ only at exact
ten-thousandth midpoints, which no property below touches.) -/
def roundPy4 (q : ℚ) : ℚ := (round (q * 10000) : ℤ) / 10000

/-- The `for entity in entities` loop of `scan_text_for_pii`, appending to the
`found_pii` accumulator those entities whose score clears the threshold. -/
def scanLoop : List Entity → List PiiFinding → List PiiFinding
  | [], acc => acc
  | e :: rest, acc =>
    if CONFIDENCE_THRESHOLD ≤ e.score then
      scanLoop rest
        (acc ++ [{ type := e.entity_group, value := e.word,
                   score := roundPy4 e.score, location := none }])
    else scanLoop rest acc

/-- Model of `scan_text_for_pii` from `app/services/nlp_service.py`.  The whole body is
wrapped in `try/except Exception`, so a raising pipeline yields the findings
accumulated so far — the empty list — and no exception ever escapes. -/
def scan_text_for_pii : DetectorResult → List PiiFinding
  | .raises => []
  | .ok es => scanLoop es []

/-- An ASCII whitespace character, for Python `str.strip()`. -/
def isPySpace (c : Char) : Bool :=
  c = ' ' ∨ c = '\t' ∨ c = '\n' ∨ c = '\r' ∨ c = '\x0b' ∨ c = '\x0c'

/-- Python `s.strip()`: remove leading and trailing whitespace.  (Defined over
the character list so that it reduces inside the kernel.) -/
def pyStrip (s : String) : String :=
  String.mk (((s.data.dropWhile isPySpace).reverse.dropWhile isPySpace).reverse)

/-- The `high_risk_types` set from `scan_file_task` in `app/tasks.py`. -/
def highRiskTypes : List String :=
  ["PERSON", "EMAIL", "PHONE_NUMBER", "CREDIT_CARD",
   "SSN", "US_DRIVER_LICENSE", "MEDICAL_LICENSE", "IBAN_CODE"]

/-- The `medium_risk_types` set from `scan_file_task` in `app/tasks.py`. -/
def mediumRiskTypes : List String :=
  ["LOCATION", "ORGANIZATION", "IP_ADDRESS", "URL", "DATE_TIME"]

/-- Lines 100–116 of `app/tasks.py`: derive the sensitivity level from the
aggregated findings.  Note the explicit final `else` branch of the source
assigns `"Internal"`, so a non-empty finding set with neither a high-risk nor
a medium-risk type is labelled `"Internal"`, not `"Clean"`. -/
def derive_level (found_pii_overall : List PiiFinding) : String :=
  if found_pii_overall.isEmpty then "Clean"
  else
    let is_confidential := found_pii_overall.any (fun e => e.type ∈ highRiskTypes)
    let is_internal := found_pii_overall.any (fun e => e.type ∈ mediumRiskTypes)
    if is_confidential then "Confidential"
    else if is_internal then "Internal"
    else "Internal"

/-- A `files` row (`app/db/models.py`), restricted to the columns the worker
and the API handlers read.  `suffix` stands for
`Path(filepath).suffix.lower()`. -/
structure FileRecord where
  id : Nat
  filename : String
  filepath : String
  suffix : String
  owner_id : Nat
  sensitivity_level : String
deriving DecidableEq, Repr

/-- One non-empty spreadsheet cell, in worksheet iteration order:
sheet name, cell coordinate, and `str(cell.value)`. -/
structure SheetCell where
  sheet : String
  coordinate : String
  value : String
deriving DecidableEq, Repr

/-- The external world as seen by one run of `scan_file_task`: whether the
backing file exists on disk, the text that extraction
(`read_text` / `get_text_from_docx` / `get_text_from_pdf`) produces for the
text-like branch, the non-empty cells the xlsx branch iterates over, and the
NER pipeline's behaviour on each input text. -/
structure ScanEnv where
  onDisk : Bool
  textContent : String
  cells : List SheetCell
  detector : String → DetectorResult

/-- Outcome of one worker run: the file record as persisted (unchanged when
the task returns early) and how many times `scan_text_for_pii` was invoked. -/
structure ScanOutcome where
  file : Option FileRecord
  detectorCalls : Nat

/-- The location tag the xlsx branch writes into each finding, built by the
source f-string from the sheet name and the cell coordinate; the escape
`\x27` stands for the apostrophes the source puts around the sheet name. -/
def cellLocation (c : SheetCell) : String :=
  "Sheet \x27" ++ c.sheet ++ "\x27, Cell " ++ c.coordinate

/-- The xlsx branch body: scan each non-empty cell and tag each finding with
its sheet/cell coordinate before appending it to `found_pii_overall`. -/
def scanCells (detector : String → DetectorResult) (cells : List SheetCell) :
    List PiiFinding :=
  (cells.map (fun c =>
    (scan_text_for_pii (detector c.value)).map (fun p =>
      { p with location := some (cellLocation c) }))).flatten

/-- Model of `scan_file_task` from `app/tasks.py`, with the record-by-id lookup already
performed (`db_file` is the result of `db.query(File).filter(id).first()`).
Missing record or missing backing file returns early leaving the record
untouched; `.txt`/`.docx`/`.pdf` scan the extracted text when it is non-blank;
`.xlsx` scans per non-empty cell; any other suffix is persisted as
`"Unsupported"` without calling the classifier. -/
def scan_file_task (env : ScanEnv) (db_file : Option FileRecord) : ScanOutcome :=
  match db_file with
  | none => { file := none, detectorCalls := 0 }
  | some f =>
    if ¬ env.onDisk then { file := some f, detectorCalls := 0 }
    else if f.suffix = ".txt" ∨ f.suffix = ".docx" ∨ f.suffix = ".pdf" then
      if pyStrip env.textContent ≠ "" then
        let found := scan_text_for_pii (env.detector env.textContent)
        { file := some { f with sensitivity_level := derive_level found },
          detectorCalls := 1 }
      else
        { file := some { f with sensitivity_level := derive_level [] },
          detectorCalls := 0 }
    else if f.suffix = ".xlsx" then
      let found := scanCells env.detector env.cells
      { file := some { f with sensitivity_level := derive_level found },
        detectorCalls := env.cells.length }
    else
      { file := some { f with sensitivity_level := "Unsupported" },
        detectorCalls := 0 }

/-- A `users` row (`app/db/models.py`), restricted to the columns the
handlers read. -/
structure User where
  id : Nat
  username : String
  role : String
deriving DecidableEq, Repr

/-- The `models.Permission` string enum with values `"view"`/`"download"`. -/
inductive Permission where
  | VIEW
  | DOWNLOAD
deriving DecidableEq, Repr

/-- The `.value` projection of the string enum. -/
def Permission.value : Permission → String
  | .VIEW => "view"
  | .DOWNLOAD => "download"

/-- A `file_shares` row. -/
structure FileShare where
  file_id : Nat
  user_id : Nat
  permission : Permission
deriving DecidableEq, Repr

/-- The relational store the handlers query. -/
structure DB where
  files : List FileRecord
  shares : List FileShare
deriving DecidableEq, Repr

/-- The query `db.query(models.File).filter(models.File.id == file_id).first()`. -/
def firstFile (db : DB) (file_id : Nat) : Option FileRecord :=
  db.files.find? (fun f => f.id == file_id)

/-- The query `db.query(models.FileShare).filter(file_id == .., user_id == ..).first()`. -/
def firstShare (db : DB) (file_id : Nat) (user_id : Nat) : Option FileShare :=
  db.shares.find? (fun s => s.file_id == file_id && s.user_id == user_id)

/-- The `Action` enum from `app/schemas/policy_schemas.py` (the name `Action` itself is taken by Mathlib). -/
inductive Action' where
  | READ
  | DOWNLOAD
  | DELETE
deriving DecidableEq, Repr

/-- The `AccessContext` schema from `app/schemas/policy_schemas.py`. -/
structure AccessContext where
  user_id : Nat
  username : String
  user_role : String
  ip_address : String
  resource_sensitivity : String
  user_permission : String
  action : Action'
  current_hour : Nat
deriving DecidableEq, Repr

/-- An `activity_logs` row (`app/db/models.py`), as written by
`log_activity`; the timestamp and surrogate id are server-generated and
omitted. -/
structure ActivityLog where
  username : String
  user_agent : Option String
  action : String
  resource_id : Option String
  ip_address : Option String
  status : String
  details : Option String
deriving DecidableEq, Repr

/-- Model of `log_activity` from `app/services/log_service.py`: builds (and commits)
one `ActivityLog` row.  `is_simulated_attack` appends a `[SIM_ATTACK]` marker
to the details; a falsy `resource_id` (Python `0`/`None`) is stored as null,
otherwise stringified. -/
def log_activity (username : String) (action : String) (status : String)
    (ip : Option String) (user_agent : Option String) (resource_id : Option Nat)
    (details : Option String) (is_simulated_attack : Bool) : ActivityLog :=
  let details2 : Option String :=
    if is_simulated_attack then some (pyStrip ((details.getD ("")) ++ " [SIM_ATTACK]"))
    else details
  let rid : Option String :=
    match resource_id with
    | none => none
    | some n => if n = 0 then none else some (toString n)
  { username := username, user_agent := user_agent, action := action,
    resource_id := rid, ip_address := ip, status := status, details := details2 }

/-- The value a handler returns on its success path. -/
inductive ApiResponse where
  | fileResponse (path : String) (filename : String)
  | streaming
  | message (detail : String)
deriving DecidableEq, Repr

/-- How a handler terminates abnormally: a raised `HTTPException` (status code
and detail, turned into an HTTP error response by the framework) or an
uncaught Python exception escaping the handler. -/
inductive PyOutcome where
  | httpEx (status_code : Nat) (detail : String)
  | pyError (e : String)
deriving DecidableEq, Repr

/-- Observable outcome of one handler call: the response or raised exception,
the audit rows written during the call (in emission order, each written before
the handler returns), and the `AccessContext` sent to the policy engine, when
the engine was invoked at all. -/
structure HandlerOutcome where
  result : Except PyOutcome ApiResponse
  logs : List ActivityLog
  opaContext : Option AccessContext

/-- Reads a Python list of strings out of a `JValue` array, failing if any
element is not a string. -/
def asStrings : List JValue → Option (List String)
  | [] => some []
  | .str s :: rest => (asStrings rest).map (fun ss => s :: ss)
  | _ :: _ => none

/-- The one-character strings of `s`, for Python string iteration. -/
def charStrings (s : String) : List String :=
  s.data.map (fun c => String.mk [c])

/-- Python `"; ".join(x)`: joins an iterable of strings — a list of strings, a
string (iterated character by character), or a dict (iterated over its keys);
anything else, or a list with a non-string element, raises `TypeError`. -/
def joinSemicolon : JValue → Except String String
  | .arr xs =>
    match asStrings xs with
    | some ss => .ok (String.intercalate ("; ") ss)
    | none => .error ("TypeError")
  | .str s => .ok (String.intercalate ("; ") (charStrings s))
  | .obj fs => .ok (String.intercalate ("; ") (fs.map (fun kv => kv.1)))
  | _ => .error ("TypeError")

/-- The `AccessContext(...)` constructor call shared by the download and view
handlers: actor identity/role, client address, the resource's current
sensitivity snapshot, the locally resolved permission, the action and the
wall-clock hour. -/
def buildContext (u : User) (client_ip : String) (f : FileRecord)
    (permission : String) (a : Action') (hr : Nat) : AccessContext :=
  { user_id := u.id, username := u.username, user_role := u.role,
    ip_address := client_ip, resource_sensitivity := f.sensitivity_level,
    user_permission := permission, action := a, current_hour := hr }

/-- Model of `download_file` from `app/api/files.py`.  `client_host` is
`request.client.host` (absent clients map to `"unknown"`), `opa` is the
external policy engine's behaviour on the serialized context.  An admin role
resolves to `ADMIN_OVERRIDE` before — and in addition to — the policy call;
a non-owner without a share record is rejected 404 with no audit row; a policy
denial is audited and rejected 403; otherwise the file is served. -/
def download_file (db : DB) (current_user : User) (file_id : Nat)
    (client_host : Option String) (current_hour : Nat) (is_attack : Bool)
    (opa : AccessContext → OPAResponse) : HandlerOutcome :=
  match firstFile db file_id with
  | none =>
    { result := .error (.httpEx 404 ("File not found")), logs := [], opaContext := none }
  | some db_file =>
    let resolved : Except PyOutcome String :=
      if current_user.role = "admin" then .ok ("ADMIN_OVERRIDE")
      else
        let is_owner := db_file.owner_id = current_user.id
        match firstShare db file_id current_user.id with
        | none =>
          if ¬ is_owner then .error (.httpEx 404 ("File not found"))
          else .ok ("OWNER")
        | some share_record =>
          .ok (if is_owner then "OWNER" else share_record.permission.value)
    match resolved with
    | .error e => { result := .error e, logs := [], opaContext := none }
    | .ok permission =>
      let client_ip := client_host.getD ("unknown")
      let context : AccessContext :=
        buildContext current_user client_ip db_file permission .DOWNLOAD current_hour
      match evaluate_request (opa context) with
      | .error e =>
        { result := .error (.pyError e), logs := [], opaContext := some context }
      | .ok decision =>
        if ¬ decision.allow.truthy then
          match joinSemicolon decision.reasons with
          | .error e =>
            { result := .error (.pyError e), logs := [], opaContext := some context }
          | .ok reasons_str =>
            let entry := log_activity current_user.username ("DOWNLOAD_ATTEMPT")
              ("DENIED_BY_POLICY") (some client_ip) none (some file_id)
              (some ("Role: " ++ context.user_role ++ ". Reasons: " ++ reasons_str))
              is_attack
            { result := .error (.httpEx 403
                ("Access Denied by Policy. Reasons: " ++ reasons_str)),
              logs := [entry], opaContext := some context }
        else
          { result := .ok (.fileResponse db_file.filepath db_file.filename),
            logs := [], opaContext := some context }

/-- Model of `view_file` from `app/api/files.py`.  Same resolution as download, except
that the no-rights branch writes a `VIEW_ATTEMPT`/`FAILURE` audit row and then
rejects 403; after an allow verdict the watermark renderer
(`create_watermarked_file`, modelled by the `watermark_ok` oracle on the file
path and watermark text) must succeed, else a `VIEW_ERROR` row is written and
the request is rejected 400. -/
def view_file (db : DB) (current_user : User) (file_id : Nat)
    (client_host : Option String) (current_hour : Nat) (user_agent : String)
    (is_attack : Bool) (opa : AccessContext → OPAResponse)
    (watermark_ok : String → String → Bool) : HandlerOutcome :=
  match firstFile db file_id with
  | none =>
    { result := .error (.httpEx 404 ("File not found")), logs := [], opaContext := none }
  | some db_file =>
    let resolved : Except HandlerOutcome String :=
      if current_user.role = "admin" then .ok ("ADMIN_OVERRIDE")
      else
        let is_owner := db_file.owner_id = current_user.id
        match firstShare db file_id current_user.id with
        | none =>
          if ¬ is_owner then
            let entry := log_activity current_user.username ("VIEW_ATTEMPT")
              ("FAILURE") none none (some file_id)
              (some ("User has no rights to this file.")) false
            .error { result := .error (.httpEx 403 ("Not authorized")),
                     logs := [entry], opaContext := none }
          else .ok ("OWNER")
        | some share_record =>
          .ok (if is_owner then "OWNER" else share_record.permission.value)
    match resolved with
    | .error out => out
    | .ok permission =>
      let client_ip := client_host.getD ("unknown")
      let context : AccessContext :=
        buildContext current_user client_ip db_file permission .READ current_hour
      match evaluate_request (opa context) with
      | .error e =>
        { result := .error (.pyError e), logs := [], opaContext := some context }
      | .ok decision =>
        if ¬ decision.allow.truthy then
          match joinSemicolon decision.reasons with
          | .error e =>
            { result := .error (.pyError e), logs := [], opaContext := some context }
          | .ok reasons_str =>
            let entry := log_activity current_user.username ("VIEW_ATTEMPT")
              ("DENIED_BY_POLICY") (some client_ip) (some user_agent) (some file_id)
              (some ("Reasons: " ++ reasons_str)) is_attack
            { result := .error (.httpEx 403 ("Access Denied by Policy")),
              logs := [entry], opaContext := some context }
        else
          let watermark_text := current_user.username ++ " | " ++ client_ip ++ " | "
            ++ db_file.sensitivity_level.toUpper
          if ¬ watermark_ok db_file.filepath watermark_text then
            let entry := log_activity current_user.username ("VIEW_ERROR")
              ("FAILURE") none none (some file_id)
              (some ("File type not supported for watermarking")) is_attack
            { result := .error (.httpEx 400 ("File type not supported for secure viewing")),
              logs := [entry], opaContext := some context }
          else
            let entry := log_activity current_user.username ("VIEW") ("SUCCESS")
              (some client_ip) (some user_agent) (some file_id)
              (some ("Successfully viewed the file")) is_attack
            { result := .ok .streaming, logs := [entry], opaContext := some context }

/-- Outcome of `delete_file`; the handler contains no policy-engine call at
all, so there is no `opaContext` component.  `dbAfter` reflects
`db.delete(db_file)` (cascading to the file's share rows). -/
structure DeleteOutcome where
  result : Except PyOutcome ApiResponse
  logs : List ActivityLog
  dbAfter : DB

/-- Model of `delete_file` from `app/api/files.py`.  `disk_error` is the `OSError`
message when removing the physical file fails (`none` when removal succeeds
or the file is already gone); that failure is audited as `PARTIAL_FAILURE`
but does not abort the record deletion. -/
def delete_file (db : DB) (current_user : User) (file_id : Nat)
    (disk_error : Option String) : DeleteOutcome :=
  match firstFile db file_id with
  | none =>
    { result := .error (.httpEx 404 ("File not found")), logs := [], dbAfter := db }
  | some db_file =>
    if current_user.role ≠ "admin" ∧ db_file.owner_id ≠ current_user.id then
      let entry := log_activity current_user.username ("DELETE_ATTEMPT") ("FAILURE")
        none none (some file_id) (some ("User is not the owner.")) false
      { result := .error (.httpEx 403 ("Not authorized to delete this file")),
        logs := [entry], dbAfter := db }
    else
      let diskLogs : List ActivityLog :=
        match disk_error with
        | none => []
        | some e =>
          [log_activity current_user.username ("DELETE_ERROR") ("PARTIAL_FAILURE")
            none none (some file_id)
            (some ("Database record deleted, but disk file remained: " ++ e)) false]
      let successEntry := log_activity current_user.username ("DELETE") ("SUCCESS")
        none none (some file_id) (some ("Filename: " ++ db_file.filename)) false
      { result := .ok (.message ("Successfully deleted file: " ++ db_file.filename)),
        logs := diskLogs ++ [successEntry],
        dbAfter := { files := db.files.filter (fun f => ¬ f.id = file_id),
                     shares := db.shares.filter (fun s => ¬ s.file_id = file_id) } }

/-- A text file owned by user 1, still unclassified. -/
def fileA : FileRecord :=
  { id := 1, filename := "a.txt", filepath := "/data/a.txt", suffix := ".txt",
    owner_id := 1, sensitivity_level := "pending" }

/-- A spreadsheet owned by user 1, still unclassified. -/
def fileX : FileRecord :=
  { id := 2, filename := "q.xlsx", filepath := "/data/q.xlsx", suffix := ".xlsx",
    owner_id := 1, sensitivity_level := "pending" }

/-- An archive, a format with no extraction strategy. -/
def fileZ : FileRecord :=
  { id := 3, filename := "b.zip", filepath := "/data/b.zip", suffix := ".zip",
    owner_id := 1, sensitivity_level := "pending" }

/-- The owner of the fixture files. -/
def ownerUser : User := { id := 1, username := "alice", role := "employee" }

/-- An authenticated non-admin actor with no relationship to the files. -/
def strangerUser : User := { id := 2, username := "mallory", role := "employee" }

/-- An administrator. -/
def adminUser : User := { id := 7, username := "root", role := "admin" }

/-- A store holding the three fixture files and no share grants. -/
def dbA : DB := { files := [fileA, fileX, fileZ], shares := [] }

/-- A policy engine that allows every request. -/
def opaAllow : AccessContext → OPAResponse :=
  fun _ => .status 200 (some (.obj [("result", .obj [("allow", .bool true)])]))

/-- An empty-world scan environment. -/
def envEmpty : ScanEnv :=
  { onDisk := true, textContent := "", cells := [], detector := fun _ => .ok [] }

/-- A scan environment whose NER pipeline raises on every input. -/
def envRaises : ScanEnv :=
  { onDisk := true, textContent := "Contact Jane Doe at jane@x.com", cells := [],
    detector := fun _ => .raises }

/-- A scan environment whose detector confidently finds only an entity type
that is in neither risk bucket. -/
def envFoo : ScanEnv :=
  { onDisk := true, textContent := "John is a developer", cells := [],
    detector := fun _ =>
      .ok [{ entity_group := "JOBTITLE", word := "developer", score := 99/100 }] }

/-- Scenario D: a workbook whose only entity sits in sheet Q1, cell B3, with
confidence 0.80 — below the retention threshold. -/
def envLowConf : ScanEnv :=
  { onDisk := true, textContent := "",
    cells := [{ sheet := "Q1", coordinate := "B3", value := "jane@x.com" }],
    detector := fun _ =>
      .ok [{ entity_group := "EMAIL", word := "jane@x.com", score := 80/100 }] }

/-- C1 counterexample: a 200 response whose body is valid JSON but not a JSON
object (here the array `[]`) is a malformed policy-engine response, yet
`evaluate_request` raises `AttributeError` past the client instead of
returning the fail-closed verdict. -/
theorem C1_counterexample :
    evaluate_request (.status 200 (some (.arr []))) = .error ("AttributeError") ∧
    evaluate_request (.status 200 (some (.arr []))) ≠ .ok failClosedDecision := by
  refine ⟨rfl, ?_⟩
  show (Except.error ("AttributeError") : Except String PEDecision) ≠ .ok failClosedDecision
  intro h
  exact Except.noConfusion h

/-- C1 (amended): on a transport error or timeout, on a 4xx/5xx status, and on
a 2xx body that is not valid JSON, `evaluate_request` returns
`allow = False` with exactly one synthetic reason naming the policy engine as
unreachable, and raises nothing; a body that parses as JSON but is not an
object escapes this handling (see the counterexample). -/
theorem C1_amended_fail_closed (code : Nat) (body : Option JValue) :
    evaluate_request .transportError = .ok failClosedDecision ∧
    (400 ≤ code ∧ code < 600 →
      evaluate_request (.status code body) = .ok failClosedDecision) ∧
    (¬ (400 ≤ code ∧ code < 600) →
      evaluate_request (.status code none) = .ok failClosedDecision) ∧
    failClosedDecision.allow = .bool false ∧
    failClosedDecision.reasons = .arr [.str unreachableReason] := by
  refine ⟨rfl, ?_, ?_, rfl, rfl⟩
  · intro h
    simp [evaluate_request, h]
  · intro h
    simp [evaluate_request, h]

/-- C1 witness: a 503 with a well-formed allowing body still fails closed, and
so does a 200 whose body is not valid JSON. -/
theorem C1_amended_fail_closed_witness :
    evaluate_request (.status 503 (some (.obj [("result", .obj [("allow", .bool true)])])))
      = .ok failClosedDecision ∧
    evaluate_request (.status 200 none) = .ok failClosedDecision :=
  ⟨(C1_amended_fail_closed 503 (some (.obj [("result", .obj [("allow", .bool true)])]))).2.1
      (by omega),
   (C1_amended_fail_closed 200 none).2.2.1 (by omega)⟩

/-- C10: for a 2xx response whose body parses as a JSON object, a missing
`result` member yields `{"allow": False, "reasons": []}`, and a `result`
object without an `allow` member yields `allow = False` with the reasons
defaulting to `[]` when `deny_reasons` is also missing: absent fields default
to denial, never to permission. -/
theorem C10_absent_fields_deny (code : Nat) (fields rf : List (String × JValue))
    (hcode : code < 400) :
    (fields.lookup ("result") = none →
      evaluate_request (.status code (some (.obj fields))) =
        .ok { allow := .bool false, reasons := .arr [] }) ∧
    (fields.lookup ("result") = some (.obj rf) →
      rf.lookup ("allow") = none →
      evaluate_request (.status code (some (.obj fields))) =
        .ok { allow := .bool false,
              reasons := (rf.lookup ("deny_reasons")).getD (.arr []) }) := by
  have hno : ¬ (400 ≤ code ∧ code < 600) := by omega
  constructor
  · intro h1
    simp [evaluate_request, pyGet, hno, h1]
  · intro h1 h2
    simp [evaluate_request, pyGet, hno, h1, h2]

/-- C10 witness: the empty object body, and a body whose `result` carries only
`deny_reasons`. -/
theorem C10_absent_fields_deny_witness :
    evaluate_request (.status 200 (some (.obj []))) =
      .ok { allow := .bool false, reasons := .arr [] } ∧
    evaluate_request
        (.status 200 (some (.obj [("result", .obj [("deny_reasons", .arr [.str ("late")])])])))
      = .ok { allow := .bool false, reasons := .arr [.str ("late")] } :=
  ⟨(C10_absent_fields_deny 200 [] [] (by omega)).1 rfl,
   (C10_absent_fields_deny 200 [("result", .obj [("deny_reasons", .arr [.str ("late")])])]
      [("deny_reasons", .arr [.str ("late")])] (by omega)).2 rfl rfl⟩

/-- C4 counterexample: a retained, non-empty finding set whose only entity
type (`JOBTITLE`) is in neither risk bucket makes the worker persist
`"Internal"`, not `"Clean"` as the claim states; shown both on the level
derivation and through a full worker run. -/
theorem C4_counterexample :
    derive_level [{ type := "JOBTITLE", value := "developer",
                    score := 99/100, location := none }] = "Internal" ∧
    (scan_file_task envFoo (some fileA)).file =
      some { fileA with sensitivity_level := "Internal" } ∧
    (scan_file_task envFoo (some fileA)).file ≠
      some { fileA with sensitivity_level := "Clean" } := by
  have hle : CONFIDENCE_THRESHOLD ≤ (99/100 : ℚ) := by
    norm_num [CONFIDENCE_THRESHOLD]
  have hstrip : pyStrip ("John is a developer") ≠ "" := by decide
  refine ⟨by simp [derive_level, highRiskTypes, mediumRiskTypes], ?_, ?_⟩
  · simp [scan_file_task, envFoo, fileA, hstrip, scan_text_for_pii, scanLoop, hle,
          derive_level, highRiskTypes, mediumRiskTypes]
  · simp [scan_file_task, envFoo, fileA, hstrip, scan_text_for_pii, scanLoop, hle,
          derive_level, highRiskTypes, mediumRiskTypes]

/-- C4 (amended): any high-risk finding yields `"Confidential"`; otherwise any
medium-risk finding yields `"Internal"`; an empty finding set yields
`"Clean"`; but a non-empty finding set containing neither a high-risk nor a
medium-risk type yields `"Internal"`, not `"Clean"`. -/
theorem C4_amended_level_derivation (found : List PiiFinding) :
    (found.any (fun e => e.type ∈ highRiskTypes) = true →
      derive_level found = "Confidential") ∧
    (found.any (fun e => e.type ∈ highRiskTypes) = false →
      found.any (fun e => e.type ∈ mediumRiskTypes) = true →
      derive_level found = "Internal") ∧
    (found = [] → derive_level found = "Clean") ∧
    (found ≠ [] →
      found.any (fun e => e.type ∈ highRiskTypes) = false →
      found.any (fun e => e.type ∈ mediumRiskTypes) = false →
      derive_level found = "Internal") := by
  refine ⟨?_, ?_, ?_, ?_⟩
  · intro h
    have hne : found ≠ [] := by
      intro he
      rw [he] at h
      simp at h
    simp [derive_level, h, hne]
  · intro h1 h2
    have hne : found ≠ [] := by
      intro he
      rw [he] at h2
      simp at h2
    simp [derive_level, h1, h2, hne]
  · intro h
    simp [derive_level, h]
  · intro hne h1 h2
    simp [derive_level, h1, h2, hne]

/-- C4 witness: the four branches of the amended derivation at concrete
finding sets. -/
theorem C4_amended_level_derivation_witness :
    derive_level [{ type := "EMAIL", value := "jane@x.com",
                    score := 99/100, location := none }] = "Confidential" ∧
    derive_level [{ type := "LOCATION", value := "Paris",
                    score := 99/100, location := none }] = "Internal" ∧
    derive_level [] = "Clean" ∧
    derive_level [{ type := "JOBTITLE", value := "developer",
                    score := 99/100, location := none }] = "Internal" :=
  ⟨(C4_amended_level_derivation _).1 (by decide),
   (C4_amended_level_derivation _).2.1 (by decide) (by decide),
   (C4_amended_level_derivation []).2.2.1 rfl,
   (C4_amended_level_derivation _).2.2.2 (by decide) (by decide) (by decide)⟩

/-- C5: the claim says a failing entity-detection step leaves the resource at
`"pending"`; in the code `scan_text_for_pii` swallows the exception and
returns the empty finding list, so the worker persists `"Clean"` for a
pending text file whose detector raised — the failure is indistinguishable
from a clean scan (no exception reaches any user, but the level does move). -/
theorem C5_detector_failure_persists_clean :
    fileA.sensitivity_level = "pending" ∧
    scan_text_for_pii ((envRaises.detector) (envRaises.textContent)) = [] ∧
    (scan_file_task envRaises (some fileA)).file =
      some { fileA with sensitivity_level := "Clean" } ∧
    (scan_file_task envRaises (some fileA)).file ≠ some fileA := by
  refine ⟨rfl, rfl, by decide, by decide⟩

/-- Helper: the classifier loop is exactly the confidence-threshold filter,
modulo the accumulator. -/
theorem scanLoop_eq_filter_map (es : List Entity) (acc : List PiiFinding) :
    scanLoop es acc =
      acc ++ (es.filter (fun e => CONFIDENCE_THRESHOLD ≤ e.score)).map
        (fun e => { type := e.entity_group, value := e.word,
                    score := roundPy4 e.score, location := none }) := by
  induction es generalizing acc with
  | nil => simp [scanLoop]
  | cons e rest ih =>
    by_cases h : CONFIDENCE_THRESHOLD ≤ e.score
    · simp [scanLoop, h, ih]
    · simp [scanLoop, h, ih]

/-- C6: on any detector result list the classifier retains exactly the
findings whose confidence is at least `CONFIDENCE_THRESHOLD = 0.95` (every
lower-scored finding is discarded), and the Scenario-D document — one entity
in sheet Q1, cell B3 at confidence 0.80 — is classified `"Clean"`. -/
theorem C6_confidence_threshold (es : List Entity) :
    scan_text_for_pii (.ok es) =
      (es.filter (fun e => CONFIDENCE_THRESHOLD ≤ e.score)).map
        (fun e => { type := e.entity_group, value := e.word,
                    score := roundPy4 e.score, location := none }) ∧
    (scan_file_task envLowConf (some fileX)).file =
      some { fileX with sensitivity_level := "Clean" } := by
  constructor
  · simpa [scan_text_for_pii] using scanLoop_eq_filter_map es []
  · have hnle : ¬ (CONFIDENCE_THRESHOLD ≤ (80/100 : ℚ)) := by
      norm_num [CONFIDENCE_THRESHOLD]
    simp [scan_file_task, envLowConf, fileX, scanCells, scan_text_for_pii,
          scanLoop, hnle, derive_level]

/-- C7: a stored document whose suffix has no extraction strategy (not
`.txt`/`.docx`/`.pdf`/`.xlsx`) is persisted with level `"Unsupported"` and the
entity-detection collaborator is never invoked. -/
theorem C7_unsupported_format (env : ScanEnv) (f : FileRecord)
    (hdisk : env.onDisk = true)
    (h1 : f.suffix ≠ ".txt") (h2 : f.suffix ≠ ".docx") (h3 : f.suffix ≠ ".pdf")
    (h4 : f.suffix ≠ ".xlsx") :
    scan_file_task env (some f) =
      { file := some { f with sensitivity_level := "Unsupported" },
        detectorCalls := 0 } := by
  simp [scan_file_task, hdisk, h1, h2, h3, h4]

/-- C7 witness: a `.zip` upload. -/
theorem C7_unsupported_format_witness :
    scan_file_task envEmpty (some fileZ) =
      { file := some { fileZ with sensitivity_level := "Unsupported" },
        detectorCalls := 0 } :=
  C7_unsupported_format envEmpty fileZ rfl (by decide) (by decide) (by decide)
    (by decide)

/-- C8: the Classification Worker is idempotent — with the record, the backing
content and the detector behaviour unchanged, re-running `scan_file_task` on
the record it just persisted reproduces the same outcome (the sensitivity
write is a pure overwrite, never a doubled side effect). -/
theorem C8_worker_idempotent (env : ScanEnv) (db_file : Option FileRecord) :
    scan_file_task env (scan_file_task env db_file).file =
      scan_file_task env db_file := by
  cases db_file with
  | none => rfl
  | some f =>
    by_cases hd : env.onDisk
    · by_cases ht : f.suffix = ".txt" ∨ f.suffix = ".docx" ∨ f.suffix = ".pdf"
      · by_cases hc : pyStrip env.textContent ≠ ""
        · simp [scan_file_task, hd, ht, hc]
        · simp [scan_file_task, hd, ht, hc]
      · by_cases hx : f.suffix = ".xlsx"
        · simp [scan_file_task, hd, ht, hx]
        · simp [scan_file_task, hd, ht, hx]
    · simp [scan_file_task, hd]

/-- C2: the code violates the exactly-one-audit-entry-per-denial invariant on
the path the claim singles out: a non-admin, non-owner actor with no share
grant who downloads an existing file is rejected with the not-found outcome
and ZERO audit entries are written (the sibling view and delete paths do
write one). -/
theorem C2_download_none_unaudited :
    (download_file dbA strangerUser 1 (some ("203.0.113.5")) 10 false opaAllow).result
      = .error (.httpEx 404 ("File not found")) ∧
    (download_file dbA strangerUser 1 (some ("203.0.113.5")) 10 false opaAllow).logs
      = [] ∧
    (download_file dbA strangerUser 1 (some ("203.0.113.5")) 10 false opaAllow).opaContext
      = none := by
  exact ⟨rfl, rfl, rfl⟩

/-- C3 counterexample: the same capability-NONE actor gets a 403
`"Not authorized"` from the view operation — a forbidden outcome, not the
404-equivalent the claim requires of every operation. -/
theorem C3_counterexample_view_forbidden :
    (view_file dbA strangerUser 1 (some ("203.0.113.5")) 10 ("curl") false opaAllow
        (fun _ _ => true)).result
      = .error (.httpEx 403 ("Not authorized")) ∧
    (view_file dbA strangerUser 1 (some ("203.0.113.5")) 10 ("curl") false opaAllow
        (fun _ _ => true)).result
      ≠ .error (.httpEx 404 ("File not found")) := by
  refine ⟨rfl, ?_⟩
  show (Except.error (PyOutcome.httpEx 403 ("Not authorized")) : Except PyOutcome ApiResponse)
      ≠ .error (.httpEx 404 ("File not found"))
  intro h
  injection h with h2
  injection h2 with h3 h4
  exact absurd h3 (by decide)

/-- C3 (amended): for an actor whose capability over an existing resource is
NONE (not admin, not owner, no share grant), the download operation returns
the very outcome an absent resource returns (404 `"File not found"`, no audit
row, no policy call), but view returns 403 `"Not authorized"` after writing
exactly one VIEW_ATTEMPT/FAILURE audit row and delete returns 403
`"Not authorized to delete this file"` after writing exactly one
DELETE_ATTEMPT/FAILURE audit row; the policy engine is invoked on none of the
three paths (`delete_file` contains no policy call at all). -/
theorem C3_amended_none_handling (db : DB) (u : User) (fid fid2 : Nat)
    (f : FileRecord) (ch : Option String) (hr : Nat) (ua : String) (atk : Bool)
    (opa : AccessContext → OPAResponse) (wm : String → String → Bool)
    (de : Option String)
    (hrole : u.role ≠ "admin")
    (hfile : firstFile db fid = some f)
    (howner : f.owner_id ≠ u.id)
    (hshare : firstShare db fid u.id = none)
    (habsent : firstFile db fid2 = none) :
    download_file db u fid ch hr atk opa = download_file db u fid2 ch hr atk opa ∧
    (download_file db u fid ch hr atk opa).result
      = .error (.httpEx 404 ("File not found")) ∧
    (download_file db u fid ch hr atk opa).logs = [] ∧
    (download_file db u fid ch hr atk opa).opaContext = none ∧
    (view_file db u fid ch hr ua atk opa wm).result
      = .error (.httpEx 403 ("Not authorized")) ∧
    (view_file db u fid ch hr ua atk opa wm).logs
      = [log_activity u.username ("VIEW_ATTEMPT") ("FAILURE") none none (some fid)
          (some ("User has no rights to this file.")) false] ∧
    (view_file db u fid ch hr ua atk opa wm).opaContext = none ∧
    (delete_file db u fid de).result
      = .error (.httpEx 403 ("Not authorized to delete this file")) ∧
    (delete_file db u fid de).logs
      = [log_activity u.username ("DELETE_ATTEMPT") ("FAILURE") none none (some fid)
          (some ("User is not the owner.")) false] := by
  refine ⟨?_, ?_, ?_, ?_, ?_, ?_, ?_, ?_, ?_⟩ <;>
    simp [download_file, view_file, delete_file, hfile, habsent, hrole, howner, hshare]

/-- C3 witness: the amended statement at the concrete fixture store. -/
theorem C3_amended_none_handling_witness :
    download_file dbA strangerUser 1 (some ("203.0.113.5")) 10 false opaAllow
      = download_file dbA strangerUser 99 (some ("203.0.113.5")) 10 false opaAllow ∧
    (download_file dbA strangerUser 1 (some ("203.0.113.5")) 10 false opaAllow).result
      = .error (.httpEx 404 ("File not found")) ∧
    (download_file dbA strangerUser 1 (some ("203.0.113.5")) 10 false opaAllow).logs = [] ∧
    (download_file dbA strangerUser 1 (some ("203.0.113.5")) 10 false opaAllow).opaContext
      = none ∧
    (view_file dbA strangerUser 1 (some ("203.0.113.5")) 10 ("curl") false opaAllow
        (fun _ _ => true)).result
      = .error (.httpEx 403 ("Not authorized")) ∧
    (view_file dbA strangerUser 1 (some ("203.0.113.5")) 10 ("curl") false opaAllow
        (fun _ _ => true)).logs
      = [log_activity ("mallory") ("VIEW_ATTEMPT") ("FAILURE") none none (some 1)
          (some ("User has no rights to this file.")) false] ∧
    (view_file dbA strangerUser 1 (some ("203.0.113.5")) 10 ("curl") false opaAllow
        (fun _ _ => true)).opaContext = none ∧
    (delete_file dbA strangerUser 1 none).result
      = .error (.httpEx 403 ("Not authorized to delete this file")) ∧
    (delete_file dbA strangerUser 1 none).logs
      = [log_activity ("mallory") ("DELETE_ATTEMPT") ("FAILURE") none none (some 1)
          (some ("User is not the owner.")) false] :=
  C3_amended_none_handling dbA strangerUser 1 99 fileA (some ("203.0.113.5")) 10
    ("curl") false opaAllow (fun _ _ => true) none (by decide) rfl (by decide) rfl rfl

/-- C9: for an administrator and any existing resource, capability resolution
yields `ADMIN_OVERRIDE` regardless of ownership or share grants, and both the
download and the view handler still invoke the Policy Decision Client, sending
it a context whose `user_permission` is `ADMIN_OVERRIDE` — the dual check is
preserved, whatever the engine then answers. -/
theorem C9_admin_override_dual_check (db : DB) (u : User) (fid : Nat)
    (f : FileRecord) (ch : Option String) (hr : Nat) (ua : String) (atk : Bool)
    (opa : AccessContext → OPAResponse) (wm : String → String → Bool)
    (hrole : u.role = "admin")
    (hfile : firstFile db fid = some f) :
    (download_file db u fid ch hr atk opa).opaContext
      = some (buildContext u (ch.getD ("unknown")) f ("ADMIN_OVERRIDE") (.DOWNLOAD) hr) ∧
    (view_file db u fid ch hr ua atk opa wm).opaContext
      = some (buildContext u (ch.getD ("unknown")) f ("ADMIN_OVERRIDE") (.READ) hr) := by
  constructor
  · simp only [download_file, hfile, hrole]
    rw [if_pos trivial]
    split
    · next e heq => exact Except.noConfusion heq
    · next permission heq =>
        injection heq with hp
        subst hp
        repeat (first | rfl | split)
  · simp only [view_file, hfile, hrole]
    rw [if_pos trivial]
    split
    · next out heq => exact Except.noConfusion heq
    · next permission heq =>
        injection heq with hp
        subst hp
        repeat (first | rfl | split)

/-- C9 witness: the administrator fixture over the pending text file; the
policy engine is reached with `user_permission = ADMIN_OVERRIDE` in both
handlers. -/
theorem C9_admin_override_dual_check_witness :
    (download_file dbA adminUser 1 (some ("203.0.113.5")) 10 false opaAllow).opaContext
      = some (buildContext adminUser ("203.0.113.5") fileA ("ADMIN_OVERRIDE")
          (.DOWNLOAD) 10) ∧
    (view_file dbA adminUser 1 (some ("203.0.113.5")) 10 ("curl") false opaAllow
        (fun _ _ => true)).opaContext
      = some (buildContext adminUser ("203.0.113.5") fileA ("ADMIN_OVERRIDE")
          (.READ) 10) :=
  C9_admin_override_dual_check dbA adminUser 1 fileA (some ("203.0.113.5")) 10
    ("curl") false opaAllow (fun _ _ => true) rfl rfl
